import Mathlib

/-!
Verification of the F1 data-analysis pipeline core
(`src/helper_classes/url_classes_abc.py`, `src/helper_classes/url_factory.py`,
`src/data_pipeline.py`) as a shallow embedding.

Python values that flow through the untyped configuration paths are modelled
by `PyVal`; raised exceptions are modelled by `Except PyError`; the network is
an oracle mapping a URL to the outcome of one HTTP GET.
-/

set_option autoImplicit false

/-- Dynamic Python values as they occur in the configuration dictionaries:
`None`, booleans, integers and strings. -/
inductive PyVal where
  | vNone
  | vBool (b : Bool)
  | vInt (n : Int)
  | vStr (s : String)
deriving DecidableEq

/-- Python exceptions that the modelled code can raise. -/
inductive PyError where
  | valueError (msg : String)
  | typeError (msg : String)
  | keyError (key : String)
  | attributeError (msg : String)
  | validationError (msgs : List String)
deriving DecidableEq

/-- A Python dict with string keys, as an insertion-ordered association list. -/
abbrev PyDict := List (String × PyVal)

/-- Python dict lookup `d[k]` / `d.get(k)` on an association list whose keys
are unique, returning the value stored under `key` when present. -/
def dictGet {α : Type} : List (String × α) → String → Option α
  | [], _ => none
  | (k, v) :: rest, key => if k = key then some v else dictGet rest key

/-- Python `d.get(k, default)`. -/
def dictGetD {α : Type} (d : List (String × α)) (key : String) (dflt : α) : α :=
  (dictGet d key).getD dflt

/-- Python dict assignment `d[k] = v`: replaces the value in place when the key
exists (keeping its position) and appends a new entry otherwise. -/
def dictInsert {α : Type} : List (String × α) → String → α → List (String × α)
  | [], key, v => [(key, v)]
  | (k, w) :: rest, key, v =>
    if k = key then (key, v) :: rest else (k, w) :: dictInsert rest key v

/-- Python truthiness of a value (`bool(v)` is `False` for `None`, `False`,
`0` and the empty string). -/
def pyFalsy : PyVal → Bool
  | .vNone => true
  | .vBool b => !b
  | .vInt n => n == 0
  | .vStr s => s == ""

/-- Truthiness of the result of `d.get(k)` used directly in a condition:
a missing key yields `None`, which is falsy. -/
def pyTruthyOpt : Option PyVal → Bool
  | none => false
  | some v => !(pyFalsy v)

/-- Whether `pat` is a leading segment of `cs` (helper for substring search). -/
def charsLead : List Char → List Char → Bool
  | [], _ => true
  | _ :: _, [] => false
  | p :: ps, c :: cs => p == c && charsLead ps cs

/-- Whether `needle` occurs contiguously inside `hay`
(Python `needle in hay` on strings). -/
def charsContain (needle : List Char) : List Char → Bool
  | [] => needle.isEmpty
  | c :: rest => charsLead needle (c :: rest) || charsContain needle rest

/-- Python substring test `sub in s`. -/
def strContains (s sub : String) : Bool :=
  charsContain sub.data s.data

/-- Scanner state for the `str.format` model: outside any replacement field,
just after a single unprocessed opening brace, just after a single unprocessed
closing brace, or inside a field with the name accumulated in reverse. -/
inductive FmtMode where
  | normal
  | afterOpen
  | afterClose
  | field (acc : List Char)
deriving DecidableEq

/-- Core of Python `str.format` restricted to keyword substitutions, the only
form the repository uses.  Doubled braces are the literal-brace escapes; a
field name not bound by `subs` raises a lookup error (`KeyError` for named
fields); stray or unterminated braces raise `ValueError`.  Conversion and
format-spec syntax (`!`/`:`) is not modelled; the repository formats plain
`\x7byear\x7d` and `\x7brace_round\x7d` fields only. -/
def pyformatGo (subs : List (String × String)) : List Char → FmtMode →
    Except PyError (List Char)
  | [], .normal => .ok []
  | [], .afterOpen => .error (.valueError "Single \x7b encountered in format string")
  | [], .afterClose => .error (.valueError "Single \x7d encountered in format string")
  | [], .field _ => .error (.valueError "expected \x7d before end of string")
  | c :: rest, .normal =>
    if c = '\x7b' then pyformatGo subs rest .afterOpen
    else if c = '\x7d' then pyformatGo subs rest .afterClose
    else
      match pyformatGo subs rest .normal with
      | .ok t => .ok (c :: t)
      | .error e => .error e
  | c :: rest, .afterOpen =>
    if c = '\x7b' then
      match pyformatGo subs rest .normal with
      | .ok t => .ok ('\x7b' :: t)
      | .error e => .error e
    else if c = '\x7d' then
      match dictGet subs "" with
      | some v =>
        match pyformatGo subs rest .normal with
        | .ok t => .ok (v.data ++ t)
        | .error e => .error e
      | none => .error (.keyError "")
    else pyformatGo subs rest (.field [c])
  | c :: rest, .afterClose =>
    if c = '\x7d' then
      match pyformatGo subs rest .normal with
      | .ok t => .ok ('\x7d' :: t)
      | .error e => .error e
    else .error (.valueError "Single \x7d encountered in format string")
  | c :: rest, .field acc =>
    if c = '\x7d' then
      match dictGet subs (String.mk acc.reverse) with
      | some v =>
        match pyformatGo subs rest .normal with
        | .ok t => .ok (v.data ++ t)
        | .error e => .error e
      | none => .error (.keyError (String.mk acc.reverse))
    else if c = '\x7b' then
      .error (.valueError "unexpected \x7b in field name")
    else pyformatGo subs rest (.field (c :: acc))

/-- Python `template.format(**subs)` with pre-stringified keyword values. -/
def pyformat (template : String) (subs : List (String × String)) :
    Except PyError String :=
  match pyformatGo subs template.data .normal with
  | .ok cs => .ok (String.mk cs)
  | .error e => .error e

/-- True when the given `Except` carries an error, i.e. the modelled Python
call raised an exception. -/
def isErr {α : Type} : Except PyError α → Bool
  | .error _ => true
  | .ok _ => false

/-- pydantic v1 `int` field coercion: `bool` is an `int` subtype (`True` is
`1`), numeric strings parse, anything else raises. -/
def int_validator : PyVal → Except String Int
  | .vInt n => .ok n
  | .vBool b => .ok (if b then 1 else 0)
  | .vStr s =>
    match s.toInt? with
    | some n => .ok n
    | none => .error "value is not a valid integer"
  | .vNone => .error "value is not a valid integer"

/-- pydantic v1 `bool` field coercion: accepts booleans, the integers 0/1 and
a small set of literal strings; everything else raises. -/
def bool_validator : PyVal → Except String Bool
  | .vBool b => .ok b
  | .vInt n =>
    if n = 1 then .ok true
    else if n = 0 then .ok false
    else .error "value could not be parsed to a boolean"
  | .vStr s =>
    if ["true", "yes", "on", "y", "t", "1"].contains s.toLower then .ok true
    else if ["false", "no", "off", "n", "f", "0"].contains s.toLower then .ok false
    else .error "value could not be parsed to a boolean"
  | .vNone => .error "value could not be parsed to a boolean"

/-- pydantic v1 `str` field coercion: strings pass through, numbers and
booleans are stringified, `None` raises. -/
def str_validator : PyVal → Except String String
  | .vStr s => .ok s
  | .vInt n => .ok (toString n)
  | .vBool b => .ok (if b then "True" else "False")
  | .vNone => .error "str type expected"

/-- Abstraction of pydantic v1 `HttpUrl` validation: accepts strings of at
most 2083 characters whose scheme is `http` or `https` followed by a nonempty
remainder, and keeps the accepted string verbatim.  (pydantic v1 stores the
original string except when the host needs IDNA re-encoding; non-ASCII hosts
are outside this model.) -/
def httpUrl_validator : PyVal → Except String String
  | .vStr s =>
    if s.data.length ≤ 2083 &&
        ((charsLead "http://".data s.data && decide (7 < s.data.length)) ||
         (charsLead "https://".data s.data && decide (8 < s.data.length))) then
      .ok s
    else .error "invalid or missing URL scheme"
  | .vNone => .error "invalid or missing URL scheme"
  | .vBool _ => .error "invalid or missing URL scheme"
  | .vInt _ => .error "invalid or missing URL scheme"

/-- An `Optional[HttpUrl]` field: `None` is allowed and skips validation. -/
def validateUrlField : PyVal → Except String (Option String)
  | .vNone => .ok none
  | v =>
    match httpUrl_validator v with
    | .ok s => .ok (some s)
    | .error e => .error e

/-- An `Optional[str]` field: `None` is allowed and skips validation. -/
def validateTemplateField : PyVal → Except String (Option String)
  | .vNone => .ok none
  | v =>
    match str_validator v with
    | .ok s => .ok (some s)
    | .error e => .error e

/-- A `Field(..., ge=lo, le=hi)` range constraint applied after coercion. -/
def boundedInt (r : Except String Int) (lo hi : Int) : Except String Int :=
  match r with
  | .error e => .error e
  | .ok n =>
    if n < lo then .error ("ensure this value is greater than or equal to " ++ toString lo)
    else if hi < n then .error ("ensure this value is less than or equal to " ++ toString hi)
    else .ok n

/-- The error, if any, of one validated field. -/
def errOf {α : Type} : Except String α → Option String
  | .error e => some e
  | .ok _ => none

/-- The validated `URLConfig` pydantic model from `url_classes_abc.py`. -/
structure URLConfig where
  url : Option String
  template_url : Option String
  year_dependent : Bool
  race_dependent : Bool
  current_race : Int
  current_year : Int
deriving DecidableEq

/-- Constructing `URLConfig(...)`: pydantic v1 validates the fields in
declaration order and collects every field error into one `ValidationError`.
The class also declares `@validator("template_url", always=True)` requiring a
template when `year_dependent` or `race_dependent` is set, but at the time it
runs `values` holds only the fields declared before `template_url` (just
`url`), so `values.get("year_dependent")` and `values.get("race_dependent")`
are always `None` and the check never fires; it is therefore not modelled as
a possible error source. -/
def mkURLConfig (url template_url year_dependent race_dependent current_race
    current_year : PyVal) : Except PyError URLConfig :=
  match validateUrlField url, validateTemplateField template_url,
      bool_validator year_dependent, bool_validator race_dependent,
      boundedInt (int_validator current_race) 0 30,
      boundedInt (int_validator current_year) 1950 2100 with
  | .ok u, .ok t, .ok yd, .ok rd, .ok cr, .ok cy =>
    .ok ⟨u, t, yd, rd, cr, cy⟩
  | ru, rt, ryd, rrd, rcr, rcy =>
    .error (.validationError
      ([errOf ru, errOf rt, errOf ryd, errOf rrd, errOf rcr, errOf rcy].filterMap id))

/-- `URLBase._build_url`: resolves the final URL from the validated
configuration.  Both flags set substitutes both placeholders; one flag set
substitutes that placeholder only; neither flag requires a concrete `url`
(the falsy check also rejects an empty string) and uses it verbatim.
Formatting a `None` template raises `AttributeError` as in Python. -/
def build_url (cfg : URLConfig) : Except PyError String :=
  if cfg.year_dependent && cfg.race_dependent then
    match cfg.template_url with
    | none => .error (.attributeError "NoneType object has no attribute format")
    | some t =>
      pyformat t [("year", toString cfg.current_year), ("race_round", toString cfg.current_race)]
  else if cfg.year_dependent then
    match cfg.template_url with
    | none => .error (.attributeError "NoneType object has no attribute format")
    | some t => pyformat t [("year", toString cfg.current_year)]
  else if cfg.race_dependent then
    match cfg.template_url with
    | none => .error (.attributeError "NoneType object has no attribute format")
    | some t => pyformat t [("race_round", toString cfg.current_race)]
  else
    match cfg.url with
    | none => .error (.valueError "url is required when not using template_url")
    | some u =>
      if u = "" then .error (.valueError "url is required when not using template_url")
      else .ok u

/-- A constructed URL handler: its validated configuration and the resolved
URL, both computed once at construction and never mutated. -/
structure URLHandler where
  config : URLConfig
  url : String
deriving DecidableEq

/-- `URLBase.__init__`: validates the inputs through `URLConfig` and then
resolves and stores the final URL. -/
def URLBase_init (url template_url year_dependent race_dependent current_race
    current_year : PyVal) : Except PyError URLHandler :=
  match mkURLConfig url template_url year_dependent race_dependent current_race current_year with
  | .error e => .error e
  | .ok cfg =>
    match build_url cfg with
    | .error e => .error e
    | .ok u => .ok ⟨cfg, u⟩

/-- `StaticURL.__init__(url)`: rejects a falsy url, then delegates to
`URLBase` with both dependence flags off (remaining arguments keep the Python
defaults `current_race=0`, `current_year=2023`). -/
def StaticURL_init (url : PyVal) : Except PyError URLHandler :=
  if pyFalsy url then .error (.valueError "URL cannot be empty for StaticURL")
  else URLBase_init url .vNone (.vBool false) (.vBool false) (.vInt 0) (.vInt 2023)

/-- The guard `if not template_url or placeholder not in template_url` shared
by `YearDependentURL.__init__` and `RaceDependentURL.__init__`: a falsy
template raises the given `ValueError`; a truthy non-string raises `TypeError`
(Python `in` on a non-iterable); a string lacking the placeholder raises the
given `ValueError`. -/
def templateCheck (t : PyVal) (placeholder msg : String) : Option PyError :=
  if pyFalsy t then some (.valueError msg)
  else
    match t with
    | .vStr s => if strContains s placeholder then none else some (.valueError msg)
    | _ => some (.typeError "argument of type is not iterable")

/-- `YearDependentURL.__init__(self, template_url, current_year,
year_dependent=True, **kwargs)`: checks the template for a `\x7byear\x7d`
placeholder, then delegates to `URLBase` with `race_dependent=False` and the
default `current_race=0`.  The parameter order matters: `current_year` is the
second positional parameter and `year_dependent` the third. -/
def YearDependentURL_init (template_url current_year year_dependent : PyVal) :
    Except PyError URLHandler :=
  match templateCheck template_url "{year}"
      "template_url is required and must contain {year} placeholder" with
  | some e => .error e
  | none =>
    URLBase_init .vNone template_url year_dependent (.vBool false) (.vInt 0) current_year

/-- `RaceDependentURL.__init__(self, template_url, current_year, current_race,
**kwargs)`: checks the template for a `\x7brace_round\x7d` placeholder, then
delegates to `URLBase` with both `year_dependent` and `race_dependent` set. -/
def RaceDependentURL_init (template_url current_year current_race : PyVal) :
    Except PyError URLHandler :=
  match templateCheck template_url "{race_round}"
      "template_url is required and must contain {race_round} placeholder" with
  | some e => .error e
  | none =>
    URLBase_init .vNone template_url (.vBool true) (.vBool true) current_race current_year

/-- `F1_race_url.__init__(self, template_url, year_dependent, current_year)`
(identically `F1_constructor_url`, `F1_driver_url`, `F1_result_url`,
`F1_sprint_url`, `F1_qualify_url`, `F1_standings_url`,
`F1_constructorstanding_url`, `F1_driverstanding_url`): forwards its three
arguments positionally via `super().__init__(template_url, year_dependent,
current_year)`, so in `YearDependentURL.__init__` the second positional slot
`current_year` receives the `year_dependent` value and the third slot
`year_dependent` receives the `current_year` value. -/
def F1_race_url_init (template_url year_dependent current_year : PyVal) :
    Except PyError URLHandler :=
  YearDependentURL_init template_url year_dependent current_year

/-- `F1_pitstop_url.__init__(self, template_url, race_dependent, current_year,
current_race)` (identically `F1_lap_url`): calls
`super().__init__(template_url, race_dependent, current_year, current_race)`
with four positional arguments, but `RaceDependentURL.__init__` accepts only
three positional parameters besides `self` (the rest is keyword-only
`**kwargs`), so Python raises `TypeError` before any constructor body runs. -/
def F1_pitstop_url_init (_template_url _race_dependent _current_year _current_race : PyVal) :
    Except PyError URLHandler :=
  .error (.typeError "init takes 4 positional arguments but 5 were given")

/-- The pydantic `APIResponse` model: an optional structured payload and a
response status message. -/
structure APIResponse where
  data : Option PyDict
  resp_msg : String
deriving DecidableEq

/-- Constructing `APIResponse(...)`: the `validate_resp_msg` validator rejects
any `resp_msg` other than exactly `Success` or `Failed`.  The model is frozen
(immutable) and forbids extra fields; no validator relates `data` to
`resp_msg`. -/
def mkAPIResponse (data : Option PyDict) (resp_msg : String) :
    Except PyError APIResponse :=
  if resp_msg = "Success" || resp_msg = "Failed" then .ok ⟨data, resp_msg⟩
  else .error (.validationError ["resp_msg must be either Success or Failed"])

/-- Decidable equality for `Except`, needed to evaluate propositions about
modelled Python calls on concrete inputs. -/
instance {ε α : Type} [DecidableEq ε] [DecidableEq α] : DecidableEq (Except ε α) := fun x y =>
  match x, y with
  | .ok a, .ok b =>
    if h : a = b then isTrue (congrArg Except.ok h)
    else isFalse (fun hh => h (Except.ok.inj hh))
  | .error a, .error b =>
    if h : a = b then isTrue (congrArg Except.error h)
    else isFalse (fun hh => h (Except.error.inj hh))
  | .ok _, .error _ => isFalse (fun hh => Except.noConfusion hh)
  | .error _, .ok _ => isFalse (fun hh => Except.noConfusion hh)

/-- The outcome of one HTTP GET as seen inside `get_data`: either a response
with a status code and a body (whose JSON decoding either yields a structured
payload or raises), or a transport-level failure (DNS, timeout, connection
refused) raised by the client.  A body that decodes to a non-dict value
behaves like a decoding failure here, because the `data` field of
`APIResponse` would reject it inside the same `try` block. -/
inductive HttpOutcome where
  | response (status : Nat) (body : Except String PyDict)
  | transportError (msg : String)
deriving DecidableEq

/-- `get_data` (the identical method body of `StaticURL`, `YearDependentURL`
and `RaceDependentURL`) applied to the outcome of the single GET it performs.
On status 200 with a decodable body it builds a `Success` envelope.  On any
other status it builds `APIResponse(resp_msg="Failed with status code: ...")`,
which `validate_resp_msg` rejects; the raised `ValidationError` is caught by
the `except` clause, whose own construction
`APIResponse(resp_msg="Error: ...")` fails validation again and escapes the
method.  A decoding failure or transport error is caught and reaches the same
`except` clause with the same result. -/
def get_data (out : HttpOutcome) : Except PyError APIResponse :=
  match out with
  | .response status body =>
    if status = 200 then
      match body with
      | .ok d => mkAPIResponse (some d) "Success"
      | .error e => mkAPIResponse none ("Error: " ++ e)
    else
      mkAPIResponse none
        ("Error: validation error for APIResponse resp_msg Failed with status code: "
          ++ toString status)
  | .transportError msg => mkAPIResponse none ("Error: " ++ msg)

/-- A handler fetch: one GET against the handler resolved URL, with the
network modelled as an oracle from URL to outcome. -/
def handlerGetData (net : String → HttpOutcome) (h : URLHandler) :
    Except PyError APIResponse :=
  get_data (net h.url)

/-- The keys of `URLFactory.STATIC_ENDPOINTS`. -/
def staticEndpointNames : List String := ["status", "season", "circuit"]

/-- The keys of `URLFactory.YEAR_DEPENDENT_ENDPOINTS`. -/
def yearDependentEndpointNames : List String :=
  ["race", "constructor", "driver", "result", "sprint", "qualify",
   "standings", "constructorstanding", "driverstanding"]

/-- The keys of `URLFactory.RACE_DEPENDENT_ENDPOINTS`. -/
def raceDependentEndpointNames : List String := ["pitstop", "lap"]

/-- The handler registry built by the factory: endpoint name to handler. -/
abbrev Handlers := List (String × URLHandler)

/-- The first loop of `URLFactory.from_config`: for each entry of
`static_endpoints` whose name is a known static endpoint, construct the
handler from `endpoint_config["url"]` (direct indexing: a missing key raises
`KeyError`) and store it under the name; other names are skipped.  No
exception is caught, so a raising construction aborts the whole build. -/
def processStaticEndpoints : Handlers → List (String × PyDict) → Except PyError Handlers
  | handlers, [] => .ok handlers
  | handlers, (name, ec) :: rest =>
    if staticEndpointNames.contains name then
      match dictGet ec "url" with
      | none => .error (.keyError "url")
      | some u =>
        match StaticURL_init u with
        | .error e => .error e
        | .ok h => processStaticEndpoints (dictInsert handlers name h) rest
    else processStaticEndpoints handlers rest

/-- The second loop of `URLFactory.from_config`: an entry of
`year_dependent_endpoints` is processed only when its name is a known
year-dependent endpoint and its `year_dependent` value is truthy; the handler
class is called with keywords `template_url=ec["template_url"]`,
`year_dependent=ec.get("year_dependent", True)`,
`current_year=ec.get("current_year", 2023)`. -/
def processYearEndpoints : Handlers → List (String × PyDict) → Except PyError Handlers
  | handlers, [] => .ok handlers
  | handlers, (name, ec) :: rest =>
    if yearDependentEndpointNames.contains name && pyTruthyOpt (dictGet ec "year_dependent") then
      match dictGet ec "template_url" with
      | none => .error (.keyError "template_url")
      | some t =>
        match F1_race_url_init t (dictGetD ec "year_dependent" (.vBool true))
            (dictGetD ec "current_year" (.vInt 2023)) with
        | .error e => .error e
        | .ok h => processYearEndpoints (dictInsert handlers name h) rest
    else processYearEndpoints handlers rest

/-- The third loop of `URLFactory.from_config`: an entry of
`race_specific_endpoints` is processed only when its name is a known
race-dependent endpoint and its `race_dependent` value is truthy; the handler
class is called with keywords `template_url=ec["template_url"]`,
`race_dependent=True`, `current_year=ec.get("current_year", 2023)`,
`current_race=ec.get("current_race", 1)`. -/
def processRaceEndpoints : Handlers → List (String × PyDict) → Except PyError Handlers
  | handlers, [] => .ok handlers
  | handlers, (name, ec) :: rest =>
    if raceDependentEndpointNames.contains name && pyTruthyOpt (dictGet ec "race_dependent") then
      match dictGet ec "template_url" with
      | none => .error (.keyError "template_url")
      | some t =>
        match F1_pitstop_url_init t (.vBool true) (dictGetD ec "current_year" (.vInt 2023))
            (dictGetD ec "current_race" (.vInt 1)) with
        | .error e => .error e
        | .ok h => processRaceEndpoints (dictInsert handlers name h) rest
    else processRaceEndpoints handlers rest

/-- A parsed configuration document: top-level keys mapping section names to
sections, each section mapping endpoint names to configuration fragments. -/
abbrev ConfigDoc := List (String × List (String × PyDict))

/-- `config.get(section, {})`. -/
def sectionOf (config : ConfigDoc) (key : String) : List (String × PyDict) :=
  (dictGet config key).getD []

/-- A document holding exactly the three known sections. -/
def mkDoc (st yd rd : List (String × PyDict)) : ConfigDoc :=
  [("static_endpoints", st), ("year_dependent_endpoints", yd),
   ("race_specific_endpoints", rd)]

/-- `URLFactory.from_config`: runs the three section loops in order over one
shared handlers dict and returns it; any exception raised while constructing
one handler propagates and aborts the remaining entries and loops. -/
def from_config (config : ConfigDoc) : Except PyError Handlers :=
  match processStaticEndpoints [] (sectionOf config "static_endpoints") with
  | .error e => .error e
  | .ok hs1 =>
    match processYearEndpoints hs1 (sectionOf config "year_dependent_endpoints") with
    | .error e => .error e
    | .ok hs2 => processRaceEndpoints hs2 (sectionOf config "race_specific_endpoints")

/-- `F1DataPipeline` state: its handler registry and its fetched-data cache,
both empty at construction. -/
structure Pipeline where
  handlers : Handlers
  data : List (String × Option PyDict)
deriving DecidableEq

/-- `F1DataPipeline.initialize`, with the parsed configuration document passed
explicitly: `none` models `load_yaml_file` returning `None` (missing file or
YAML error).  A falsy (empty) document raises inside the `try`, and any
exception from handler construction is caught as well; both paths return
`False` and leave the pipeline unchanged.  On success the handlers are stored
and `True` is returned — note that zero constructed handlers still counts as
success. -/
def pipelineInit (loaded : Option ConfigDoc) (p : Pipeline) : Bool × Pipeline :=
  match loaded with
  | none => (false, p)
  | some cfg =>
    if cfg.isEmpty then (false, p)
    else
      match from_config cfg with
      | .error _ => (false, p)
      | .ok hs => (true, { p with handlers := hs })

/-- The per-handler loop of `F1DataPipeline.fetch_all_data`: each handler
fetch runs inside its own `try`; a `Success` envelope stores the payload
under the endpoint name, a non-`Success` envelope or a raised exception is
reported and leaves the cache unchanged, and iteration always continues with
the remaining handlers. -/
def fetch_all_loop (net : String → HttpOutcome) (data : List (String × Option PyDict)) :
    Handlers → List (String × Option PyDict)
  | [] => data
  | (name, h) :: rest =>
    match handlerGetData net h with
    | .ok r =>
      if r.resp_msg = "Success" then fetch_all_loop net (dictInsert data name r.data) rest
      else fetch_all_loop net data rest
    | .error _ => fetch_all_loop net data rest

/-- `F1DataPipeline.fetch_all_data`: when no handlers are present it first
runs initialization, returning an empty dict if that fails; otherwise it runs
the fetch loop over every handler and returns the updated data cache. -/
def fetch_all_data (p : Pipeline) (loaded : Option ConfigDoc) (net : String → HttpOutcome) :
    List (String × Option PyDict) × Pipeline :=
  if p.handlers.isEmpty then
    match pipelineInit loaded p with
    | (false, p1) => ([], p1)
    | (true, p1) =>
      let d := fetch_all_loop net p1.data p1.handlers
      (d, { p1 with data := d })
  else
    let d := fetch_all_loop net p.data p.handlers
    (d, { p with data := d })

/-- What the fetch loop stores for one endpoint: on a `Success` envelope the
payload, on a non-`Success` envelope or a raised exception the previous cache
content (`fallback`). -/
def storedAfterFetch (net : String → HttpOutcome) (h : URLHandler)
    (fallback : Option (Option PyDict)) : Option (Option PyDict) :=
  match handlerGetData net h with
  | .ok r => if r.resp_msg = "Success" then some r.data else fallback
  | .error _ => fallback

/-- The C2 failing input: a fully valid year-dependent entry for the known
endpoint `race` with flag `true`, a template containing the year placeholder
and a year in range. -/
def cfgC2 : ConfigDoc :=
  mkDoc []
    [("race", [("template_url", PyVal.vStr "http://ergast.com/api/f1/{year}"),
               ("year_dependent", PyVal.vBool true),
               ("current_year", PyVal.vInt 2023)])]
    []

/-- A static handler resolving to a fixed URL, used as a concrete witness. -/
def staticDemo : URLHandler :=
  ⟨⟨some "http://example.com/api", none, false, false, 0, 2023⟩, "http://example.com/api"⟩

/-- A year-dependent handler with the year substituted, used as a witness. -/
def yearDemo : URLHandler :=
  ⟨⟨none, some "http://example.com/{year}/races", true, false, 0, 2012⟩,
   "http://example.com/2012/races"⟩

/-- A handler depending on both year and race round, used as a witness. -/
def bothDemo : URLHandler :=
  ⟨⟨none, some "http://example.com/{year}/{race_round}", true, true, 5, 2012⟩,
   "http://example.com/2012/5"⟩

/-- A handler depending on the race round only, used as a witness. -/
def raceOnlyDemo : URLHandler :=
  ⟨⟨none, some "http://example.com/round/{race_round}", false, true, 7, 2000⟩,
   "http://example.com/round/7"⟩

/-- Three registered handlers for the fetch-isolation witness. -/
def handlerA : URLHandler :=
  ⟨⟨some "http://example.com/a", none, false, false, 0, 2023⟩, "http://example.com/a"⟩

/-- Second witness handler; its URL is the one the demo network refuses. -/
def handlerB : URLHandler :=
  ⟨⟨some "http://example.com/b", none, false, false, 0, 2023⟩, "http://example.com/b"⟩

/-- Third witness handler. -/
def handlerC : URLHandler :=
  ⟨⟨some "http://example.com/c", none, false, false, 0, 2023⟩, "http://example.com/c"⟩

/-- A registry of three handlers, the middle of which will fail. -/
def demoHandlers : Handlers := [("a", handlerA), ("b", handlerB), ("c", handlerC)]

/-- A network oracle on which endpoint `b` suffers a transport failure while
`a` and `c` respond 200 with decodable bodies. -/
def demoNet : String → HttpOutcome := fun u =>
  if u = "http://example.com/b" then .transportError "connection refused"
  else if u = "http://example.com/a" then .response 200 (.ok [("x", PyVal.vInt 1)])
  else .response 200 (.ok [("y", PyVal.vInt 2)])

/-! ### Helper lemmas -/

/-- Looking up the key just inserted yields the inserted value. -/
theorem dictGet_insert_self {α : Type} (d : List (String × α)) (k : String) (v : α) :
    dictGet (dictInsert d k v) k = some v := by
  induction d with
  | nil => simp [dictInsert, dictGet]
  | cons p rest ih =>
    obtain ⟨k0, v0⟩ := p
    by_cases h : k0 = k
    · subst h; simp [dictInsert, dictGet]
    · simp [dictInsert, dictGet, h, ih]

/-- Inserting under one key leaves lookups of other keys unchanged. -/
theorem dictGet_insert_ne {α : Type} (d : List (String × α)) (k k2 : String) (v : α)
    (hne : k ≠ k2) : dictGet (dictInsert d k v) k2 = dictGet d k2 := by
  induction d with
  | nil => simp [dictInsert, dictGet, hne]
  | cons p rest ih =>
    obtain ⟨k0, v0⟩ := p
    by_cases h : k0 = k
    · subst h; simp [dictInsert, dictGet, hne]
    · simp [dictInsert, dictGet, h, ih]

/-- A successful `URLBase_init` records exactly the validated configuration
and the URL resolved from it. -/
theorem URLBase_init_ok {u t yd rd cr cy : PyVal} {h : URLHandler}
    (H : URLBase_init u t yd rd cr cy = .ok h) :
    mkURLConfig u t yd rd cr cy = .ok h.config ∧ build_url h.config = .ok h.url := by
  unfold URLBase_init at H
  cases hc : mkURLConfig u t yd rd cr cy with
  | error e => rw [hc] at H; exact absurd H (by simp)
  | ok cfg =>
    rw [hc] at H
    simp only [] at H
    cases hb : build_url cfg with
    | error e => rw [hb] at H; exact absurd H (by simp)
    | ok s =>
      rw [hb] at H
      simp only [] at H
      cases H
      exact ⟨rfl, hb⟩

/-- A successful `URLConfig` validation means every field validator
succeeded with the recorded field value. -/
theorem mkURLConfig_ok {u t yd rd cr cy : PyVal} {cfg : URLConfig}
    (H : mkURLConfig u t yd rd cr cy = .ok cfg) :
    validateUrlField u = .ok cfg.url ∧ validateTemplateField t = .ok cfg.template_url ∧
    bool_validator yd = .ok cfg.year_dependent ∧ bool_validator rd = .ok cfg.race_dependent ∧
    boundedInt (int_validator cr) 0 30 = .ok cfg.current_race ∧
    boundedInt (int_validator cy) 1950 2100 = .ok cfg.current_year := by
  unfold mkURLConfig at H
  split at H
  · cases H
    refine ⟨?_, ?_, ?_, ?_, ?_, ?_⟩ <;> assumption
  · exact absurd H (by simp)

/-- A bounded-range check that succeeds returns the coerced value itself. -/
theorem boundedInt_ok_inj {m lo hi n : Int} (h : boundedInt (.ok m) lo hi = .ok n) :
    m = n := by
  unfold boundedInt at h
  by_cases h1 : m < lo
  · simp [h1] at h
  · by_cases h2 : hi < m
    · simp [h1, h2] at h
    · simp [h1, h2] at h
      exact h

/-- Unfolding the URL scheme check on a string value. -/
theorem httpUrl_validator_str (s : String) :
    httpUrl_validator (PyVal.vStr s) =
      (if s.data.length ≤ 2083 &&
          ((charsLead "http://".data s.data && decide (7 < s.data.length)) ||
           (charsLead "https://".data s.data && decide (8 < s.data.length))) then
        .ok s
      else .error "invalid or missing URL scheme") := rfl

/-- The URL scheme check returns the accepted string itself. -/
theorem httpUrl_validator_str_ok {s s2 : String}
    (h : httpUrl_validator (PyVal.vStr s) = .ok s2) : s2 = s := by
  rw [httpUrl_validator_str] at h
  split at h
  · exact (Except.ok.inj h).symm
  · exact absurd h (by simp)

/-- Unfolding the optional URL field on a string value. -/
theorem validateUrlField_str (s : String) :
    validateUrlField (PyVal.vStr s) =
      (match httpUrl_validator (PyVal.vStr s) with
       | .ok s2 => .ok (some s2)
       | .error e => .error e) := rfl

/-- A string URL field that validates is stored verbatim. -/
theorem validateUrlField_str_ok {s : String} {u : Option String}
    (h : validateUrlField (PyVal.vStr s) = .ok u) : u = some s := by
  rw [validateUrlField_str] at h
  cases hv : httpUrl_validator (PyVal.vStr s) with
  | ok s2 =>
    rw [hv] at h
    simp only [] at h
    rw [httpUrl_validator_str_ok hv] at h
    exact (Except.ok.inj h).symm
  | error e => rw [hv] at h; exact absurd h (by simp)

/-! ### Claim theorems -/

/-- Claim C1: the claim says every non-200 status and every transport failure
is normalized into a `Failed` envelope and never escapes `get_data`.  The
code contradicts its own `APIResponse` validator: `resp_msg` must be exactly
`Success` or `Failed`, so the strings `Failed with status code: ...` and
`Error: ...` that `get_data` builds are rejected and the resulting
`ValidationError` escapes the method; only the 200-with-decodable-body path
returns an envelope.  This theorem evaluates the code at the failing
inputs. -/
theorem C1_get_data_raises_instead_of_failed_envelope :
    isErr (get_data (.response 404 (.ok []))) = true ∧
    isErr (get_data (.transportError "connection refused")) = true ∧
    isErr (get_data (.response 200 (.error "Expecting value"))) = true ∧
    get_data (.response 200 (.ok [("x", PyVal.vInt 1)])) =
      .ok ⟨some [("x", PyVal.vInt 1)], "Success"⟩ :=
  ⟨rfl, rfl, rfl, rfl⟩

/-- Claim C2: the claim says a valid year-dependent entry produces a handler
in the registry with the year substituted.  In the code, `F1_race_url`
forwards `(template_url, year_dependent, current_year)` positionally into
`YearDependentURL.__init__(template_url, current_year, year_dependent)`, so
`current_year` receives `True` (coerced to 1, outside 1950..2100) and
`year_dependent` receives 2023 (not a valid boolean): `URLConfig` validation
raises and the whole build aborts.  Calling `YearDependentURL` directly with
the values in their intended slots succeeds and substitutes the year,
showing the intent and locating the slip in the subclass. -/
theorem C2_year_dependent_factory_raises :
    from_config cfgC2 =
      .error (.validationError ["value could not be parsed to a boolean",
        "ensure this value is greater than or equal to 1950"]) ∧
    YearDependentURL_init (PyVal.vStr "http://ergast.com/api/f1/{year}")
        (PyVal.vInt 2023) (PyVal.vBool true) =
      .ok ⟨⟨none, some "http://ergast.com/api/f1/{year}", true, false, 0, 2023⟩,
        "http://ergast.com/api/f1/2023"⟩ :=
  ⟨rfl, rfl⟩

/-- Claim C3 counterexample: a `Success` envelope with no payload is
constructible — `validate_resp_msg` checks only the status string, so payload
presence is not enforced at construction, refuting the claimed
payload-iff-success invariant. -/
theorem C3_success_envelope_without_payload :
    mkAPIResponse none "Success" = .ok ⟨none, "Success"⟩ := rfl

/-- Claim C3 (amended): construction of a response envelope succeeds exactly
when the status string is literally `Success` or `Failed`, and the payload is
stored unchanged, independent of the status. -/
theorem C3_envelope_construction_characterized (d : Option PyDict) (m : String) :
    (∃ r, mkAPIResponse d m = .ok r ∧ r.data = d ∧ r.resp_msg = m) ↔
      (m = "Success" ∨ m = "Failed") := by
  constructor
  · rintro ⟨r, hr, -, -⟩
    by_contra hcon
    push_neg at hcon
    simp [mkAPIResponse, hcon.1, hcon.2] at hr
  · intro h
    refine ⟨⟨d, m⟩, ?_, rfl, rfl⟩
    rcases h with h | h <;> simp [mkAPIResponse, h]

/-- Claim C3 witness: the characterization applied at a concrete payload-free
`Failed` envelope. -/
theorem C3_envelope_construction_characterized_witness :
    ∃ r, mkAPIResponse none "Failed" = .ok r ∧ r.data = none ∧ r.resp_msg = "Failed" :=
  (C3_envelope_construction_characterized none "Failed").mpr (Or.inr rfl)

/-- Claim C4 counterexample: a document whose static section holds one
malformed known entry (empty url) followed by a perfectly valid one; the
build raises and returns no handlers at all, refuting the claim that the
factory skips the bad entry and still returns the others. -/
theorem C4_single_bad_entry_aborts_build :
    from_config (mkDoc
      [("circuit", [("url", PyVal.vStr "")]),
       ("status", [("url", PyVal.vStr "http://example.com/f1/status")])] [] []) =
      .error (.valueError "URL cannot be empty for StaticURL") := rfl

/-- Claim C4 (amended): a configuration error raised while constructing one
endpoint propagates out of `from_config` (which has no per-entry exception
handling), aborting the whole build — no registry is returned for the other
valid entries, whatever they are. -/
theorem C4_construction_error_propagates (rest yd rd : List (String × PyDict)) :
    from_config (mkDoc (("circuit", [("url", PyVal.vStr "")]) :: rest) yd rd) =
      .error (.valueError "URL cannot be empty for StaticURL") := rfl

/-- Claim C4 witness: the amended statement applied to a concrete document
with one trailing valid entry. -/
theorem C4_construction_error_propagates_witness :
    from_config (mkDoc (("circuit", [("url", PyVal.vStr "")]) ::
      [("season", [("url", PyVal.vStr "http://example.com/f1/seasons")])]) [] []) =
      .error (.valueError "URL cannot be empty for StaticURL") :=
  C4_construction_error_propagates
    [("season", [("url", PyVal.vStr "http://example.com/f1/seasons")])] [] []

/-- Claim C6: URL resolution is a pure function of the validated
configuration, computed once at construction.  Whenever a static handler
constructs, its resolved URL is the configured url verbatim; whenever a
year-dependent handler constructs (flag set), its resolved URL is the
template with only the year placeholder substituted; whenever a handler with
both dependencies constructs, both placeholders are substituted; and the
race-only branch of `URLBase` substitutes only the race-round placeholder. -/
theorem C6_url_resolution :
    (∀ (s : String) (h : URLHandler),
        StaticURL_init (PyVal.vStr s) = .ok h → h.url = s) ∧
    (∀ (t : String) (y : Int) (h : URLHandler),
        YearDependentURL_init (PyVal.vStr t) (PyVal.vInt y) (PyVal.vBool true) = .ok h →
        pyformat t [("year", toString y)] = .ok h.url) ∧
    (∀ (t : String) (y r : Int) (h : URLHandler),
        RaceDependentURL_init (PyVal.vStr t) (PyVal.vInt y) (PyVal.vInt r) = .ok h →
        pyformat t [("year", toString y), ("race_round", toString r)] = .ok h.url) ∧
    (∀ (t : String) (y r : Int) (h : URLHandler),
        URLBase_init PyVal.vNone (PyVal.vStr t) (PyVal.vBool false) (PyVal.vBool true)
          (PyVal.vInt r) (PyVal.vInt y) = .ok h →
        pyformat t [("race_round", toString r)] = .ok h.url) := by
  refine ⟨?_, ?_, ?_, ?_⟩
  · intro s h H
    unfold StaticURL_init at H
    split at H
    · exact absurd H (by simp)
    · next hfal =>
      obtain ⟨hc, hb⟩ := URLBase_init_ok H
      obtain ⟨h1, h2, h3, h4, h5, h6⟩ := mkURLConfig_ok hc
      have hurl : h.config.url = some s := validateUrlField_str_ok h1
      have hyd : h.config.year_dependent = false :=
        (Except.ok.inj (show Except.ok false = _ from h3)).symm
      have hrd : h.config.race_dependent = false :=
        (Except.ok.inj (show Except.ok false = _ from h4)).symm
      have hs0 : ¬(s = "") := by simpa [pyFalsy] using hfal
      unfold build_url at hb
      rw [hyd, hrd, hurl] at hb
      simp [hs0] at hb
      exact hb.symm
  · intro t y h H
    unfold YearDependentURL_init at H
    cases hr : templateCheck (PyVal.vStr t) "{year}"
        "template_url is required and must contain {year} placeholder" with
    | some e => rw [hr] at H; exact absurd H (by simp)
    | none =>
      rw [hr] at H
      simp only [] at H
      obtain ⟨hc, hb⟩ := URLBase_init_ok H
      obtain ⟨h1, h2, h3, h4, h5, h6⟩ := mkURLConfig_ok hc
      have ht : h.config.template_url = some t :=
        (Except.ok.inj (show Except.ok (some t) = _ from h2)).symm
      have hyd : h.config.year_dependent = true :=
        (Except.ok.inj (show Except.ok true = _ from h3)).symm
      have hrd : h.config.race_dependent = false :=
        (Except.ok.inj (show Except.ok false = _ from h4)).symm
      have hcy : h.config.current_year = y :=
        (boundedInt_ok_inj (show boundedInt (Except.ok y) 1950 2100 = _ from h6)).symm
      unfold build_url at hb
      rw [hyd, hrd, ht, hcy] at hb
      simpa using hb
  · intro t y r h H
    unfold RaceDependentURL_init at H
    cases hr : templateCheck (PyVal.vStr t) "{race_round}"
        "template_url is required and must contain {race_round} placeholder" with
    | some e => rw [hr] at H; exact absurd H (by simp)
    | none =>
      rw [hr] at H
      simp only [] at H
      obtain ⟨hc, hb⟩ := URLBase_init_ok H
      obtain ⟨h1, h2, h3, h4, h5, h6⟩ := mkURLConfig_ok hc
      have ht : h.config.template_url = some t :=
        (Except.ok.inj (show Except.ok (some t) = _ from h2)).symm
      have hyd : h.config.year_dependent = true :=
        (Except.ok.inj (show Except.ok true = _ from h3)).symm
      have hrd : h.config.race_dependent = true :=
        (Except.ok.inj (show Except.ok true = _ from h4)).symm
      have hcr : h.config.current_race = r :=
        (boundedInt_ok_inj (show boundedInt (Except.ok r) 0 30 = _ from h5)).symm
      have hcy : h.config.current_year = y :=
        (boundedInt_ok_inj (show boundedInt (Except.ok y) 1950 2100 = _ from h6)).symm
      unfold build_url at hb
      rw [hyd, hrd, ht, hcy, hcr] at hb
      simpa using hb
  · intro t y r h H
    obtain ⟨hc, hb⟩ := URLBase_init_ok H
    obtain ⟨h1, h2, h3, h4, h5, h6⟩ := mkURLConfig_ok hc
    have ht : h.config.template_url = some t :=
      (Except.ok.inj (show Except.ok (some t) = _ from h2)).symm
    have hyd : h.config.year_dependent = false :=
      (Except.ok.inj (show Except.ok false = _ from h3)).symm
    have hrd : h.config.race_dependent = true :=
      (Except.ok.inj (show Except.ok true = _ from h4)).symm
    have hcr : h.config.current_race = r :=
      (boundedInt_ok_inj (show boundedInt (Except.ok r) 0 30 = _ from h5)).symm
    unfold build_url at hb
    rw [hyd, hrd, ht, hcr] at hb
    simpa using hb

/-- Claim C6 witness: the resolution theorem applied to four concrete
constructions, one per branch. -/
theorem C6_url_resolution_witness :
    staticDemo.url = "http://example.com/api" ∧
    pyformat "http://example.com/{year}/races" [("year", toString (2012 : Int))] =
      .ok yearDemo.url ∧
    pyformat "http://example.com/{year}/{race_round}"
      [("year", toString (2012 : Int)), ("race_round", toString (5 : Int))] =
      .ok bothDemo.url ∧
    pyformat "http://example.com/round/{race_round}" [("race_round", toString (7 : Int))] =
      .ok raceOnlyDemo.url :=
  ⟨C6_url_resolution.1 "http://example.com/api" staticDemo rfl,
   C6_url_resolution.2.1 "http://example.com/{year}/races" 2012 yearDemo rfl,
   C6_url_resolution.2.2.1 "http://example.com/{year}/{race_round}" 2012 5 bothDemo rfl,
   C6_url_resolution.2.2.2 "http://example.com/round/{race_round}" 2000 7 raceOnlyDemo rfl⟩

/-- Claim C7: a year-dependent descriptor whose template is absent, empty or
lacks the year placeholder fails at construction with the configuration
`ValueError`, and a race-dependent descriptor whose template is absent, empty
or lacks the race-round placeholder does likewise — in the model construction
is pure, so the failure happens before any network access is possible. -/
theorem C7_missing_placeholder_fails_fast :
    (∀ cy yd : PyVal, YearDependentURL_init PyVal.vNone cy yd =
        .error (.valueError "template_url is required and must contain {year} placeholder")) ∧
    (∀ (s : String) (cy yd : PyVal), strContains s "{year}" = false →
        YearDependentURL_init (PyVal.vStr s) cy yd =
          .error (.valueError "template_url is required and must contain {year} placeholder")) ∧
    (∀ cy cr : PyVal, RaceDependentURL_init PyVal.vNone cy cr =
        .error (.valueError "template_url is required and must contain {race_round} placeholder")) ∧
    (∀ (s : String) (cy cr : PyVal), strContains s "{race_round}" = false →
        RaceDependentURL_init (PyVal.vStr s) cy cr =
          .error (.valueError "template_url is required and must contain {race_round} placeholder")) := by
  refine ⟨fun cy yd => rfl, ?_, fun cy cr => rfl, ?_⟩
  · intro s cy yd hnoyr
    unfold YearDependentURL_init templateCheck
    by_cases hs : s = ""
    · subst hs; simp [pyFalsy]
    · simp [pyFalsy, hs, hnoyr]
  · intro s cy cr hnorr
    unfold RaceDependentURL_init templateCheck
    by_cases hs : s = ""
    · subst hs; simp [pyFalsy]
    · simp [pyFalsy, hs, hnorr]

/-- Claim C7 witness: the fail-fast theorem applied to concrete templates
lacking their required placeholders. -/
theorem C7_missing_placeholder_fails_fast_witness :
    YearDependentURL_init (PyVal.vStr "http://example.com/races") (PyVal.vInt 2023)
        (PyVal.vBool true) =
      .error (.valueError "template_url is required and must contain {year} placeholder") ∧
    RaceDependentURL_init (PyVal.vStr "http://example.com/laps/{year}") (PyVal.vInt 2023)
        (PyVal.vInt 3) =
      .error (.valueError "template_url is required and must contain {race_round} placeholder") :=
  ⟨C7_missing_placeholder_fails_fast.2.1 "http://example.com/races" (PyVal.vInt 2023)
      (PyVal.vBool true) (by decide),
   C7_missing_placeholder_fails_fast.2.2.2 "http://example.com/laps/{year}" (PyVal.vInt 2023)
      (PyVal.vInt 3) (by decide)⟩

/-- An endpoint name with no handler in the remaining registry is untouched by
the fetch loop. -/
theorem fetch_all_loop_absent (net : String → HttpOutcome) :
    ∀ (hs : Handlers) (data : List (String × Option PyDict)) (n : String),
      n ∉ hs.map Prod.fst →
      dictGet (fetch_all_loop net data hs) n = dictGet data n := by
  intro hs
  induction hs with
  | nil => intro data n _; rfl
  | cons p rest ih =>
    obtain ⟨k, g⟩ := p
    intro data n hn
    rw [List.map_cons, List.mem_cons] at hn
    push_neg at hn
    obtain ⟨hnk, hnrest⟩ := hn
    cases hg : handlerGetData net g with
    | ok r =>
      by_cases hr : r.resp_msg = "Success"
      · rw [show fetch_all_loop net data ((k, g) :: rest) =
            fetch_all_loop net (dictInsert data k r.data) rest by
          simp [fetch_all_loop, hg, hr]]
        rw [ih _ n hnrest, dictGet_insert_ne data k n r.data (fun hk => hnk hk.symm)]
      · rw [show fetch_all_loop net data ((k, g) :: rest) = fetch_all_loop net data rest by
          simp [fetch_all_loop, hg, hr]]
        exact ih _ n hnrest
    | error e =>
      rw [show fetch_all_loop net data ((k, g) :: rest) = fetch_all_loop net data rest by
        simp [fetch_all_loop, hg]]
      exact ih _ n hnrest

/-- For an endpoint registered in a duplicate-free registry, the fetch loop
leaves exactly what its own fetch outcome dictates: the payload on `Success`,
the previous cache content otherwise. -/
theorem fetch_all_loop_found (net : String → HttpOutcome) :
    ∀ (hs : Handlers) (data : List (String × Option PyDict)) (n : String) (h : URLHandler),
      (n, h) ∈ hs → (hs.map Prod.fst).Nodup →
      dictGet (fetch_all_loop net data hs) n = storedAfterFetch net h (dictGet data n) := by
  intro hs
  induction hs with
  | nil => intro data n h hmem _; exact absurd hmem (List.not_mem_nil _)
  | cons p rest ih =>
    obtain ⟨k, g⟩ := p
    intro data n h hmem hnd
    rw [List.map_cons, List.nodup_cons] at hnd
    obtain ⟨hknotin, hndrest⟩ := hnd
    rcases List.mem_cons.mp hmem with heq | hmem2
    · injection heq with e1 e2
      rw [e1, e2]
      cases hg : handlerGetData net g with
      | ok r =>
        by_cases hr : r.resp_msg = "Success"
        · rw [show fetch_all_loop net data ((k, g) :: rest) =
              fetch_all_loop net (dictInsert data k r.data) rest by
            simp [fetch_all_loop, hg, hr]]
          rw [fetch_all_loop_absent net rest _ k hknotin, dictGet_insert_self,
            storedAfterFetch, hg]
          simp [hr]
        · rw [show fetch_all_loop net data ((k, g) :: rest) = fetch_all_loop net data rest by
            simp [fetch_all_loop, hg, hr]]
          rw [fetch_all_loop_absent net rest data k hknotin, storedAfterFetch, hg]
          simp [hr]
      | error e =>
        rw [show fetch_all_loop net data ((k, g) :: rest) = fetch_all_loop net data rest by
          simp [fetch_all_loop, hg]]
        rw [fetch_all_loop_absent net rest data k hknotin, storedAfterFetch, hg]
    · have hn_in : n ∈ rest.map Prod.fst := List.mem_map.mpr ⟨(n, h), hmem2, rfl⟩
      have hkn : k ≠ n := fun hk => hknotin (hk ▸ hn_in)
      cases hg : handlerGetData net g with
      | ok r =>
        by_cases hr : r.resp_msg = "Success"
        · rw [show fetch_all_loop net data ((k, g) :: rest) =
              fetch_all_loop net (dictInsert data k r.data) rest by
            simp [fetch_all_loop, hg, hr]]
          rw [ih _ n h hmem2 hndrest, dictGet_insert_ne data k n r.data hkn]
        · rw [show fetch_all_loop net data ((k, g) :: rest) = fetch_all_loop net data rest by
            simp [fetch_all_loop, hg, hr]]
          exact ih _ n h hmem2 hndrest
      | error e =>
        rw [show fetch_all_loop net data ((k, g) :: rest) = fetch_all_loop net data rest by
          simp [fetch_all_loop, hg]]
        exact ih _ n h hmem2 hndrest

/-- Claim C5: over a freshly initialized pipeline with a duplicate-free,
nonempty registry, the fetch-all operation returns a mapping that contains an
entry under an endpoint name exactly when that endpoint fetch produced a
`Success` envelope (and then it is that envelope payload); endpoints whose
fetch returned a non-`Success` envelope or raised are absent, names with no
handler are absent, and one endpoint outcome never influences another
endpoint entry. -/
theorem C5_fetch_all_isolation (net : String → HttpOutcome) (loaded : Option ConfigDoc)
    (hs : Handlers) (hne : hs ≠ []) (hnd : (hs.map Prod.fst).Nodup) :
    (∀ n h, (n, h) ∈ hs →
        dictGet (fetch_all_data ⟨hs, []⟩ loaded net).1 n = storedAfterFetch net h none) ∧
    (∀ n, n ∉ hs.map Prod.fst → dictGet (fetch_all_data ⟨hs, []⟩ loaded net).1 n = none) := by
  have hie : hs.isEmpty = false := by
    cases hs with
    | nil => exact absurd rfl hne
    | cons a l => rfl
  have hrun : (fetch_all_data ⟨hs, []⟩ loaded net).1 = fetch_all_loop net [] hs := by
    unfold fetch_all_data
    simp [hie]
  constructor
  · intro n h hmem
    rw [hrun, fetch_all_loop_found net hs [] n h hmem hnd]
    rfl
  · intro n hn
    rw [hrun, fetch_all_loop_absent net hs [] n hn]
    rfl

/-- Claim C5 witness: the spec scenario of three handlers where the middle
one suffers a transport failure — the result holds exactly the two succeeding
payloads, and the failing endpoint and unknown names are absent. -/
theorem C5_fetch_all_isolation_witness :
    dictGet (fetch_all_data ⟨demoHandlers, []⟩ none demoNet).1 "a" =
      some (some [("x", PyVal.vInt 1)]) ∧
    dictGet (fetch_all_data ⟨demoHandlers, []⟩ none demoNet).1 "b" = none ∧
    dictGet (fetch_all_data ⟨demoHandlers, []⟩ none demoNet).1 "c" =
      some (some [("y", PyVal.vInt 2)]) ∧
    dictGet (fetch_all_data ⟨demoHandlers, []⟩ none demoNet).1 "driver" = none :=
  ⟨((C5_fetch_all_isolation demoNet none demoHandlers (by decide) (by decide)).1
      "a" handlerA (by decide)).trans rfl,
   ((C5_fetch_all_isolation demoNet none demoHandlers (by decide) (by decide)).1
      "b" handlerB (by decide)).trans rfl,
   ((C5_fetch_all_isolation demoNet none demoHandlers (by decide) (by decide)).1
      "c" handlerC (by decide)).trans rfl,
   (C5_fetch_all_isolation demoNet none demoHandlers (by decide) (by decide)).2
      "driver" (by decide)⟩

/-- Reading the static section of a three-section document. -/
theorem sectionOf_mkDoc_static (st yd rd : List (String × PyDict)) :
    sectionOf (mkDoc st yd rd) "static_endpoints" = st := rfl

/-- Reading the year-dependent section of a three-section document. -/
theorem sectionOf_mkDoc_year (st yd rd : List (String × PyDict)) :
    sectionOf (mkDoc st yd rd) "year_dependent_endpoints" = yd := rfl

/-- Reading the race-specific section of a three-section document. -/
theorem sectionOf_mkDoc_race (st yd rd : List (String × PyDict)) :
    sectionOf (mkDoc st yd rd) "race_specific_endpoints" = rd := rfl

/-- An entry whose name is not a known static endpoint is skipped by the
static loop without affecting anything else. -/
theorem processStatic_skip (n : String) (f : PyDict)
    (hn : staticEndpointNames.contains n = false) :
    ∀ (pre : List (String × PyDict)) (hs : Handlers) (post : List (String × PyDict)),
      processStaticEndpoints hs (pre ++ (n, f) :: post) =
        processStaticEndpoints hs (pre ++ post) := by
  intro pre
  induction pre with
  | nil =>
    intro hs post
    have hn2 : ¬(staticEndpointNames.contains n = true) :=
      fun hcon => Bool.false_ne_true (hn ▸ hcon)
    show processStaticEndpoints hs ((n, f) :: post) = processStaticEndpoints hs post
    conv_lhs => unfold processStaticEndpoints
    rw [if_neg hn2]
  | cons p rest ih =>
    obtain ⟨k, e⟩ := p
    intro hs post
    simp only [List.cons_append]
    unfold processStaticEndpoints
    by_cases hk : staticEndpointNames.contains k = true
    · rw [if_pos hk, if_pos hk]
      cases hu : dictGet e "url" with
      | none => rfl
      | some u =>
        simp only []
        cases hi : StaticURL_init u with
        | error er => rfl
        | ok h => exact ih (dictInsert hs k h) post
    · rw [if_neg hk, if_neg hk]
      exact ih hs post

/-- An entry whose name is not a known year-dependent endpoint, or whose
`year_dependent` value is missing or falsy, is skipped by the year loop
without affecting anything else. -/
theorem processYear_skip (n : String) (f : PyDict)
    (hn : (yearDependentEndpointNames.contains n &&
      pyTruthyOpt (dictGet f "year_dependent")) = false) :
    ∀ (pre : List (String × PyDict)) (hs : Handlers) (post : List (String × PyDict)),
      processYearEndpoints hs (pre ++ (n, f) :: post) =
        processYearEndpoints hs (pre ++ post) := by
  intro pre
  induction pre with
  | nil =>
    intro hs post
    have hn2 : ¬((yearDependentEndpointNames.contains n &&
        pyTruthyOpt (dictGet f "year_dependent")) = true) :=
      fun hcon => Bool.false_ne_true (hn ▸ hcon)
    show processYearEndpoints hs ((n, f) :: post) = processYearEndpoints hs post
    conv_lhs => unfold processYearEndpoints
    rw [if_neg hn2]
  | cons p rest ih =>
    obtain ⟨k, e⟩ := p
    intro hs post
    simp only [List.cons_append]
    unfold processYearEndpoints
    by_cases hk : (yearDependentEndpointNames.contains k &&
        pyTruthyOpt (dictGet e "year_dependent")) = true
    · rw [if_pos hk, if_pos hk]
      cases hu : dictGet e "template_url" with
      | none => rfl
      | some t =>
        simp only []
        cases hi : F1_race_url_init t (dictGetD e "year_dependent" (PyVal.vBool true))
            (dictGetD e "current_year" (PyVal.vInt 2023)) with
        | error er => rfl
        | ok h => exact ih (dictInsert hs k h) post
    · rw [if_neg hk, if_neg hk]
      exact ih hs post

/-- An entry whose name is not a known race-dependent endpoint, or whose
`race_dependent` value is missing or falsy, is skipped by the race loop
without affecting anything else. -/
theorem processRace_skip (n : String) (f : PyDict)
    (hn : (raceDependentEndpointNames.contains n &&
      pyTruthyOpt (dictGet f "race_dependent")) = false) :
    ∀ (pre : List (String × PyDict)) (hs : Handlers) (post : List (String × PyDict)),
      processRaceEndpoints hs (pre ++ (n, f) :: post) =
        processRaceEndpoints hs (pre ++ post) := by
  intro pre
  induction pre with
  | nil =>
    intro hs post
    have hn2 : ¬((raceDependentEndpointNames.contains n &&
        pyTruthyOpt (dictGet f "race_dependent")) = true) :=
      fun hcon => Bool.false_ne_true (hn ▸ hcon)
    show processRaceEndpoints hs ((n, f) :: post) = processRaceEndpoints hs post
    conv_lhs => unfold processRaceEndpoints
    rw [if_neg hn2]
  | cons p rest ih =>
    obtain ⟨k, e⟩ := p
    intro hs post
    simp only [List.cons_append]
    unfold processRaceEndpoints
    by_cases hk : (raceDependentEndpointNames.contains k &&
        pyTruthyOpt (dictGet e "race_dependent")) = true
    · rw [if_pos hk, if_pos hk]
      cases hu : dictGet e "template_url" with
      | none => rfl
      | some t =>
        simp only []
        cases hi : F1_pitstop_url_init t (PyVal.vBool true)
            (dictGetD e "current_year" (PyVal.vInt 2023))
            (dictGetD e "current_race" (PyVal.vInt 1)) with
        | error er => rfl
        | ok h => exact ih (dictInsert hs k h) post
    · rw [if_neg hk, if_neg hk]
      exact ih hs post

/-- Claim C8 counterexample: a document that parses and is nonempty but whose
only entry is unknown builds an empty registry, and `initialize` nevertheless
returns success — refuting the claim that it fails whenever no handlers
result. -/
theorem C8_zero_handlers_still_success :
    from_config (mkDoc [("telemetry", [("url", PyVal.vStr "http://example.com/t")])] [] []) =
      .ok [] ∧
    (pipelineInit
      (some (mkDoc [("telemetry", [("url", PyVal.vStr "http://example.com/t")])] [] []))
      ⟨[], []⟩).1 = true :=
  ⟨rfl, rfl⟩

/-- Claim C8 (amended): `initialize` returns failure when the document is
missing/unparsable or empty, or when building the registry raises; when the
document parses and the build succeeds it returns success even with zero
handlers.  When no handlers are present, fetch-all first runs `initialize`,
and after an initialization failure it returns an empty mapping without
raising. -/
theorem C8_initialization_contract (p : Pipeline) (net : String → HttpOutcome)
    (hp : p.handlers = []) :
    (pipelineInit none p).1 = false ∧
    (pipelineInit (some []) p).1 = false ∧
    (fetch_all_data p none net).1 = [] ∧
    (∀ cfg hs, cfg ≠ [] → from_config cfg = .ok hs → (pipelineInit (some cfg) p).1 = true) ∧
    (∀ cfg, cfg ≠ [] → isErr (from_config cfg) = true → (pipelineInit (some cfg) p).1 = false) := by
  refine ⟨rfl, rfl, ?_, ?_, ?_⟩
  · have hie : p.handlers.isEmpty = true := by rw [hp]; rfl
    unfold fetch_all_data
    simp [hie, pipelineInit]
  · intro cfg hs hcfg hok
    have hie : cfg.isEmpty = false := by
      cases cfg with
      | nil => exact absurd rfl hcfg
      | cons a l => rfl
    unfold pipelineInit
    simp [hie, hok]
  · intro cfg hcfg herr
    have hie : cfg.isEmpty = false := by
      cases cfg with
      | nil => exact absurd rfl hcfg
      | cons a l => rfl
    unfold pipelineInit
    cases hc : from_config cfg with
    | error e => simp [hie, hc]
    | ok hs => rw [hc] at herr; exact absurd herr (by simp [isErr])

/-- Claim C8 witness: the contract applied to the fresh pipeline, with a
document yielding zero handlers for the success case. -/
theorem C8_initialization_contract_witness :
    (pipelineInit none ⟨[], []⟩).1 = false ∧
    (fetch_all_data ⟨[], []⟩ none (fun _ => HttpOutcome.transportError "refused")).1 = [] ∧
    (pipelineInit (some (mkDoc [] [("future", [("year_dependent", PyVal.vBool true)])] []))
      ⟨[], []⟩).1 = true := by
  obtain ⟨h1, -, h3, h4, -⟩ :=
    C8_initialization_contract ⟨[], []⟩ (fun _ => HttpOutcome.transportError "refused") rfl
  exact ⟨h1, h3, h4 (mkDoc [] [("future", [("year_dependent", PyVal.vBool true)])] []) []
    (by decide) rfl⟩

/-- Claim C9 counterexample: a document with an unknown static entry together
with a fully valid, flagged, known year-dependent entry; the build raises (the
year-dependent constructor rejects the factory arguments), so the other
matching entry is not included in any registry — refuting the claim that
every other matching entry is still included. -/
theorem C9_matching_entry_not_included :
    isErr (from_config (mkDoc
      [("telemetry", [("url", PyVal.vStr "http://example.com/t")])]
      [("race", [("template_url", PyVal.vStr "http://ergast.com/api/f1/{year}"),
                 ("year_dependent", PyVal.vBool true),
                 ("current_year", PyVal.vInt 2023)])]
      [])) = true := rfl

/-- Claim C9 (amended): an entry whose name is not in the known-kind table
for its section, or a year- or race-dependent entry whose kind flag is missing
or falsy, is silently omitted: deleting it from the document leaves the
result of the build — errors included — exactly unchanged, so no error arises
from such entries and every other entry is handled exactly as without them. -/
theorem C9_unknown_entries_skipped :
    (∀ (n : String) (f : PyDict) (pre post yd rd : List (String × PyDict)),
        staticEndpointNames.contains n = false →
        from_config (mkDoc (pre ++ (n, f) :: post) yd rd) =
          from_config (mkDoc (pre ++ post) yd rd)) ∧
    (∀ (n : String) (f : PyDict) (st pre post rd : List (String × PyDict)),
        (yearDependentEndpointNames.contains n &&
          pyTruthyOpt (dictGet f "year_dependent")) = false →
        from_config (mkDoc st (pre ++ (n, f) :: post) rd) =
          from_config (mkDoc st (pre ++ post) rd)) ∧
    (∀ (n : String) (f : PyDict) (st yd pre post : List (String × PyDict)),
        (raceDependentEndpointNames.contains n &&
          pyTruthyOpt (dictGet f "race_dependent")) = false →
        from_config (mkDoc st yd (pre ++ (n, f) :: post)) =
          from_config (mkDoc st yd (pre ++ post))) := by
  refine ⟨?_, ?_, ?_⟩
  · intro n f pre post yd rd hn
    unfold from_config
    rw [sectionOf_mkDoc_static, sectionOf_mkDoc_static, sectionOf_mkDoc_year,
      sectionOf_mkDoc_year, sectionOf_mkDoc_race, sectionOf_mkDoc_race,
      processStatic_skip n f hn pre [] post]
  · intro n f st pre post rd hn
    unfold from_config
    rw [sectionOf_mkDoc_static, sectionOf_mkDoc_static, sectionOf_mkDoc_year,
      sectionOf_mkDoc_year, sectionOf_mkDoc_race, sectionOf_mkDoc_race]
    cases hst : processStaticEndpoints [] st with
    | error e => rfl
    | ok hs1 => simp only [processYear_skip n f hn pre hs1 post]
  · intro n f st yd pre post hn
    unfold from_config
    rw [sectionOf_mkDoc_static, sectionOf_mkDoc_static, sectionOf_mkDoc_year,
      sectionOf_mkDoc_year, sectionOf_mkDoc_race, sectionOf_mkDoc_race]
    cases hst : processStaticEndpoints [] st with
    | error e => rfl
    | ok hs1 =>
      simp only []
      cases hyd : processYearEndpoints hs1 yd with
      | error e => rfl
      | ok hs2 => simp only [processRace_skip n f hn pre hs2 post]

/-- Claim C9 witness: deleting an unknown static entry and an unflagged
year-dependent entry leaves the build of a document with one valid static
entry unchanged. -/
theorem C9_unknown_entries_skipped_witness :
    from_config (mkDoc
      [("telemetry", [("url", PyVal.vStr "http://example.com/t")]),
       ("status", [("url", PyVal.vStr "http://example.com/f1/status")])]
      [("race", [("template_url", PyVal.vStr "http://x/{year}")])] []) =
    from_config (mkDoc
      [("status", [("url", PyVal.vStr "http://example.com/f1/status")])]
      [("race", [("template_url", PyVal.vStr "http://x/{year}")])] []) ∧
    from_config (mkDoc
      [("status", [("url", PyVal.vStr "http://example.com/f1/status")])]
      [("race", [("template_url", PyVal.vStr "http://x/{year}")])] []) =
    from_config (mkDoc
      [("status", [("url", PyVal.vStr "http://example.com/f1/status")])] [] []) :=
  ⟨C9_unknown_entries_skipped.1 "telemetry" [("url", PyVal.vStr "http://example.com/t")]
      [] [("status", [("url", PyVal.vStr "http://example.com/f1/status")])]
      [("race", [("template_url", PyVal.vStr "http://x/{year}")])] [] (by decide),
   C9_unknown_entries_skipped.2.1 "race" [("template_url", PyVal.vStr "http://x/{year}")]
      [("status", [("url", PyVal.vStr "http://example.com/f1/status")])] [] [] [] (by decide)⟩

/-- Claim C10 counterexample: a year-dependent fragment without
`current_year` and a race-dependent fragment without `current_year` and
`current_race`; in both cases no handler is constructed — the build raises —
refuting the claim that the factory constructs the handler with the
defaults. -/
theorem C10_no_handler_despite_defaults :
    isErr (from_config (mkDoc []
      [("race", [("template_url", PyVal.vStr "http://ergast.com/api/f1/{year}"),
                 ("year_dependent", PyVal.vBool true)])] [])) = true ∧
    isErr (from_config (mkDoc [] []
      [("pitstop", [("template_url", PyVal.vStr "http://x/{race_round}"),
                    ("race_dependent", PyVal.vBool true)])])) = true :=
  ⟨rfl, rfl⟩

/-- Claim C10 (amended): the factory substitutes the defaults
`current_year = 2023` and `current_race = 1` for missing fields — it raises
no lookup error for them, and the build behaves exactly as if the defaults
had been written explicitly in the fragment; for these kinds the constructor
then rejects the factory arguments either way, so no handler is actually
built. -/
theorem C10_missing_fields_use_defaults (t : PyVal) :
    from_config (mkDoc []
      [("race", [("template_url", t), ("year_dependent", PyVal.vBool true)])] []) =
    from_config (mkDoc []
      [("race", [("template_url", t), ("year_dependent", PyVal.vBool true),
                 ("current_year", PyVal.vInt 2023)])] []) ∧
    from_config (mkDoc [] []
      [("pitstop", [("template_url", t), ("race_dependent", PyVal.vBool true)])]) =
    from_config (mkDoc [] []
      [("pitstop", [("template_url", t), ("race_dependent", PyVal.vBool true),
                    ("current_year", PyVal.vInt 2023), ("current_race", PyVal.vInt 1)])]) :=
  ⟨rfl, rfl⟩

/-- Claim C10 witness: the default-substitution equations at a concrete
template. -/
theorem C10_missing_fields_use_defaults_witness :
    from_config (mkDoc []
      [("race", [("template_url", PyVal.vStr "http://x/{year}"),
                 ("year_dependent", PyVal.vBool true)])] []) =
    from_config (mkDoc []
      [("race", [("template_url", PyVal.vStr "http://x/{year}"),
                 ("year_dependent", PyVal.vBool true),
                 ("current_year", PyVal.vInt 2023)])] []) :=
  (C10_missing_fields_use_defaults (PyVal.vStr "http://x/{year}")).1
